import Mathlib

/-!
# Verification of the resume-analysis workflow state machine

A shallow embedding of the workflow-state module of the repository
(state factory, transition validator, progress calculator) together
with the file-validation utility, and proofs of the specification's
testable properties against it.

Floating-point percentages and scores in the source take only small
exact decimal values, so they are modelled as rationals.
-/

namespace ResumeWorkflow

/-- The fixed adjacency table of the transition validator: for each
recognized step name, the list of permitted next steps.  Unknown keys
yield the empty list, mirroring `dict.get(from_step, [])`. -/
def valid_transitions (from_step : String) : List String :=
  if from_step = "initialized" then ["parsing_resume"]
  else if from_step = "parsing_resume" then ["resume_parsed", "error"]
  else if from_step = "resume_parsed" then ["searching_jobs"]
  else if from_step = "searching_jobs" then ["jobs_found", "error"]
  else if from_step = "jobs_found" then ["scoring_ats"]
  else if from_step = "scoring_ats" then ["ats_scored", "error"]
  else if from_step = "ats_scored" then ["generating_advice"]
  else if from_step = "generating_advice" then ["completed", "error"]
  else if from_step = "error" then ["retry", "completed"]
  else if from_step = "completed" then []
  else []

/-- `validate_state_transition from_step to_step` — membership test of
`to_step` in the permitted-successor list of `from_step`. -/
def validate_state_transition (from_step to_step : String) : Bool :=
  decide (to_step ∈ valid_transitions from_step)

/-- `get_state_progress_percentage current_step` — the fixed progress
table, defaulting to `0` for unrecognized step names. -/
def get_state_progress_percentage (current_step : String) : ℚ :=
  if current_step = "initialized" then 0
  else if current_step = "parsing_resume" then 10
  else if current_step = "resume_parsed" then 25
  else if current_step = "searching_jobs" then 40
  else if current_step = "jobs_found" then 60
  else if current_step = "scoring_ats" then 75
  else if current_step = "ats_scored" then 85
  else if current_step = "generating_advice" then 95
  else if current_step = "completed" then 100
  else if current_step = "error" then 0
  else 0

/-- The ten keys of the transition table. -/
def transitionTableKeys : List String :=
  ["initialized", "parsing_resume", "resume_parsed", "searching_jobs",
   "jobs_found", "scoring_ats", "ats_scored", "generating_advice",
   "error", "completed"]

/-- The ten keys of the progress table. -/
def progressTableKeys : List String :=
  ["initialized", "parsing_resume", "resume_parsed", "searching_jobs",
   "jobs_found", "scoring_ats", "ats_scored", "generating_advice",
   "completed", "error"]

/-- The fourteen `(from, to)` pairs of the spec's transition table. -/
def specTransitionPairs : List (String × String) :=
  [("initialized", "parsing_resume"),
   ("parsing_resume", "resume_parsed"), ("parsing_resume", "error"),
   ("resume_parsed", "searching_jobs"),
   ("searching_jobs", "jobs_found"), ("searching_jobs", "error"),
   ("jobs_found", "scoring_ats"),
   ("scoring_ats", "ats_scored"), ("scoring_ats", "error"),
   ("ats_scored", "generating_advice"),
   ("generating_advice", "completed"), ("generating_advice", "error"),
   ("error", "retry"), ("error", "completed")]

/-- A JSON-like value: models the `Any` payloads stored in
`parsed_sections` and serves as the serialization target for the
round-trip property. -/
inductive JValue where
  | null : JValue
  | jbool : Bool → JValue
  | jint : Int → JValue
  | jrat : ℚ → JValue
  | jstr : String → JValue
  | jarr : List JValue → JValue
deriving Repr

/-- Structured resume information extracted by the Resume Intelligence
Agent (`ResumeData` in the source). -/
structure ResumeData where
  raw_text : String
  parsed_sections : List (String × JValue)
  skills : List String
  experience_years : Int
  education_level : String
  job_titles : List String
  industries : List String
  certifications : List String
deriving Repr

/-- Individual job match found by the Job Market Research Agent
(`JobMatch` in the source). -/
structure JobMatch where
  title : String
  company : String
  location : String
  description : String
  required_skills : List String
  preferred_skills : List String
  salary_range : Option String
  experience_required : Option String
  match_score : ℚ
  source : String
  job_url : Option String
  posted_date : Option String
deriving Repr

/-- ATS compatibility score for a specific job (`ATSScore` in the
source). -/
structure ATSScore where
  job_title : String
  overall_score : Int
  keyword_score : Int
  format_score : Int
  structure_score : Int
  recommendations : List String
  missing_keywords : List String
  keyword_density : List (String × ℚ)
deriving Repr

/-- Specific points and improvements to add to the resume
(`ResumeEnhancement` in the source). -/
structure ResumeEnhancement where
  missing_skills_to_add : List String
  experience_bullets_to_add : List String
  keywords_to_incorporate : List String
  technical_tools_to_mention : List String
  certifications_to_pursue : List String
  action_verbs_suggestions : List String
  quantifiable_achievements : List String
  section_improvements : List (String × List String)
deriving Repr

/-- A conversation-log entry: the spec describes each message as a
record tagged with a role and content (the source stores opaque
`BaseMessage` values from an external library). -/
structure Message where
  role : String
  content : String
deriving Repr

/-- The main workflow state threaded through all nodes
(`ResumeAnalysisState` in the source, a `TypedDict`). -/
structure ResumeAnalysisState where
  messages : List Message
  uploaded_file_path : Option String
  target_job_title : Option String
  target_industry : Option String
  target_location : Option String
  experience_level : Option String
  resume_data : Option ResumeData
  parsing_errors : List String
  file_format : Option String
  parsing_confidence : Option ℚ
  matching_jobs : List JobMatch
  job_search_errors : List String
  search_query_used : Option String
  total_jobs_found : Int
  ats_scores : List ATSScore
  average_ats_score : Option ℚ
  best_ats_match : Option String
  improvement_recommendations : List String
  resume_enhancements : Option ResumeEnhancement
  personalized_tips : List String
  priority_improvements : List String
  current_step : String
  errors : List String
  warnings : List String
  is_complete : Bool
  processing_time_seconds : Option ℚ
  workflow_version : Option String
  timestamp_started : Option String
  timestamp_completed : Option String
  user_id : Option String
deriving Repr

/-- `create_initial_state` from the source.  The call to
`datetime.now().isoformat()` is modelled by the explicit clock argument
`now`, the ISO-8601 string for the moment of the call. -/
def create_initial_state (now : String) (uploaded_file_path : String)
    (target_job_title : Option String := none)
    (target_industry : Option String := none)
    (target_location : Option String := none)
    (experience_level : Option String := none) : ResumeAnalysisState where
  messages := []
  uploaded_file_path := some uploaded_file_path
  target_job_title := target_job_title
  target_industry := target_industry
  target_location := target_location
  experience_level := experience_level
  resume_data := none
  parsing_errors := []
  file_format := none
  parsing_confidence := none
  matching_jobs := []
  job_search_errors := []
  search_query_used := none
  total_jobs_found := 0
  ats_scores := []
  average_ats_score := none
  best_ats_match := none
  improvement_recommendations := []
  resume_enhancements := none
  personalized_tips := []
  priority_improvements := []
  current_step := "initialized"
  errors := []
  warnings := []
  is_complete := false
  processing_time_seconds := none
  workflow_version := some "1.0.0"
  timestamp_started := some now
  timestamp_completed := none
  user_id := none

/-- Last index of character `c` in `cs`, or `-1` when absent: models
`str.rfind` from Python. -/
def rfind (cs : List Char) (c : Char) : Int :=
  match cs with
  | [] => -1
  | x :: xs =>
    let r := rfind xs c
    if r ≥ 0 then r + 1
    else if x = c then 0 else -1

/-- `os.path.splitext` on a POSIX path, over the character list of the
path: the extension starts at the last dot, provided that dot lies
after the last separator and is not part of a leading run of dots in
the basename (hidden files like `.bashrc` have no extension). -/
def splitext (p : List Char) : List Char × List Char :=
  let sepIndex := rfind p '/'
  let dotIndex := rfind p '.'
  if sepIndex < dotIndex then
    if ((p.drop (sepIndex + 1).toNat).take
          (dotIndex - (sepIndex + 1)).toNat).all (fun ch => ch = '.') then
      (p, [])
    else
      (p.take dotIndex.toNat, p.drop dotIndex.toNat)
  else (p, [])

/-- An abstract model of the filesystem queries used by the file
validator: `os.path.exists` and `os.path.getsize` (size in bytes). -/
structure FileSystem where
  path_exists : String → Bool
  getsize : String → ℕ

/-- The extensions accepted by the file validator. -/
def allowed_extensions : List String := [".pdf", ".docx", ".txt"]

/-- `validate_file` from the source: checks existence, then the size
bound in megabytes, then the extension of the lowercased path, and
returns a validity flag together with an optional error message. -/
def validate_file (fs : FileSystem) (file_path : String)
    (max_size_mb : Int := 5) : Bool × Option String :=
  if ¬ fs.path_exists file_path then
    (false, some "File does not exist")
  else
    let file_size_mb : ℚ := (fs.getsize file_path : ℚ) / (1024 * 1024)
    if file_size_mb > (max_size_mb : ℚ) then
      (false, some ("File too large: " ++ toString file_size_mb ++
        "MB (max: " ++ toString max_size_mb ++ "MB)"))
    else
      let file_ext := String.mk (splitext file_path.toLower.toList).2
      if file_ext ∉ allowed_extensions then
        (false, some ("Unsupported file type: " ++ file_ext ++
          ". Allowed: .pdf, .docx, .txt"))
      else
        (true, none)

/-- Modelled from the spec: no serialization code exists in the
repository source; the spec only requires that serializing a
`WorkflowState` for persistence/transport and deserializing the result
yields a field-for-field identical state, preserving the distinction
between an empty list and an absent optional field.  Fields are
encoded into a `JValue` tree; an absent optional is encoded as `null`
and a present one as a one-element array, so absence is never
conflated with emptiness.  String encoder. -/
def encStr (s : String) : JValue := .jstr s

/-- String decoder. -/
def decStr : JValue → Option String
  | .jstr s => some s
  | _ => none

/-- Boolean encoder. -/
def encBool (b : Bool) : JValue := .jbool b

/-- Boolean decoder. -/
def decBool : JValue → Option Bool
  | .jbool b => some b
  | _ => none

/-- Integer encoder. -/
def encInt (n : Int) : JValue := .jint n

/-- Integer decoder. -/
def decInt : JValue → Option Int
  | .jint n => some n
  | _ => none

/-- Rational (float-model) encoder. -/
def encRat (q : ℚ) : JValue := .jrat q

/-- Rational (float-model) decoder. -/
def decRat : JValue → Option ℚ
  | .jrat q => some q
  | _ => none

/-- Optional-field encoder: `null` for absent, a one-element array for
present, keeping absence distinct from every direct encoding. -/
def encOpt (enc : α → JValue) : Option α → JValue
  | none => .null
  | some a => .jarr [enc a]

/-- Optional-field decoder. -/
def decOpt (dec : JValue → Option α) : JValue → Option (Option α)
  | .null => some none
  | .jarr [v] => (dec v).map some
  | _ => none

/-- List encoder. -/
def encList (enc : α → JValue) (xs : List α) : JValue := .jarr (xs.map enc)

/-- Elementwise decoder of a list of encoded values. -/
def decJList (dec : JValue → Option α) : List JValue → Option (List α)
  | [] => some []
  | v :: vs => do
      let a ← dec v
      let as ← decJList dec vs
      pure (a :: as)

/-- List decoder. -/
def decList (dec : JValue → Option α) : JValue → Option (List α)
  | .jarr vs => decJList dec vs
  | _ => none

/-- Pair encoder (used for the dictionary-valued fields). -/
def encPair (encA : α → JValue) (encB : β → JValue) (p : α × β) : JValue :=
  .jarr [encA p.1, encB p.2]

/-- Pair decoder. -/
def decPair (decA : JValue → Option α) (decB : JValue → Option β) :
    JValue → Option (α × β)
  | .jarr [va, vb] => do
      let a ← decA va
      let b ← decB vb
      pure (a, b)
  | _ => none

/-- String-list codec, encoding side. -/
def encStrList (xs : List String) : JValue := encList encStr xs

/-- String-list codec, decoding side. -/
def decStrList (v : JValue) : Option (List String) := decList decStr v

/-- `parsed_sections` codec (section name to arbitrary payload),
encoding side. -/
def encSections (xs : List (String × JValue)) : JValue :=
  encList (encPair encStr (fun v => v)) xs

/-- `parsed_sections` codec, decoding side. -/
def decSections (v : JValue) : Option (List (String × JValue)) :=
  decList (decPair decStr some) v

/-- `keyword_density` codec (keyword to density), encoding side. -/
def encDensity (xs : List (String × ℚ)) : JValue :=
  encList (encPair encStr encRat) xs

/-- `keyword_density` codec, decoding side. -/
def decDensity (v : JValue) : Option (List (String × ℚ)) :=
  decList (decPair decStr decRat) v

/-- `section_improvements` codec (section name to improvement list),
encoding side. -/
def encSectionMap (xs : List (String × List String)) : JValue :=
  encList (encPair encStr encStrList) xs

/-- `section_improvements` codec, decoding side. -/
def decSectionMap (v : JValue) : Option (List (String × List String)) :=
  decList (decPair decStr decStrList) v

/-- `ResumeData` encoder: a positional array of its eight fields. -/
def encResumeData (r : ResumeData) : JValue :=
  .jarr [encStr r.raw_text, encSections r.parsed_sections,
    encStrList r.skills, encInt r.experience_years,
    encStr r.education_level, encStrList r.job_titles,
    encStrList r.industries, encStrList r.certifications]

/-- `ResumeData` decoder. -/
def decResumeData : JValue → Option ResumeData
  | .jarr [v1, v2, v3, v4, v5, v6, v7, v8] => do
      let raw_text ← decStr v1
      let parsed_sections ← decSections v2
      let skills ← decStrList v3
      let experience_years ← decInt v4
      let education_level ← decStr v5
      let job_titles ← decStrList v6
      let industries ← decStrList v7
      let certifications ← decStrList v8
      pure ⟨raw_text, parsed_sections, skills, experience_years,
        education_level, job_titles, industries, certifications⟩
  | _ => none

/-- `JobMatch` encoder: a positional array of its twelve fields. -/
def encJobMatch (j : JobMatch) : JValue :=
  .jarr [encStr j.title, encStr j.company, encStr j.location,
    encStr j.description, encStrList j.required_skills,
    encStrList j.preferred_skills, encOpt encStr j.salary_range,
    encOpt encStr j.experience_required, encRat j.match_score,
    encStr j.source, encOpt encStr j.job_url,
    encOpt encStr j.posted_date]

/-- `JobMatch` decoder. -/
def decJobMatch : JValue → Option JobMatch
  | .jarr [v1, v2, v3, v4, v5, v6, v7, v8, v9, v10, v11, v12] => do
      let title ← decStr v1
      let company ← decStr v2
      let location ← decStr v3
      let description ← decStr v4
      let required_skills ← decStrList v5
      let preferred_skills ← decStrList v6
      let salary_range ← decOpt decStr v7
      let experience_required ← decOpt decStr v8
      let match_score ← decRat v9
      let source ← decStr v10
      let job_url ← decOpt decStr v11
      let posted_date ← decOpt decStr v12
      pure ⟨title, company, location, description, required_skills,
        preferred_skills, salary_range, experience_required, match_score,
        source, job_url, posted_date⟩
  | _ => none

/-- `ATSScore` encoder: a positional array of its eight fields. -/
def encATSScore (a : ATSScore) : JValue :=
  .jarr [encStr a.job_title, encInt a.overall_score,
    encInt a.keyword_score, encInt a.format_score,
    encInt a.structure_score, encStrList a.recommendations,
    encStrList a.missing_keywords, encDensity a.keyword_density]

/-- `ATSScore` decoder. -/
def decATSScore : JValue → Option ATSScore
  | .jarr [v1, v2, v3, v4, v5, v6, v7, v8] => do
      let job_title ← decStr v1
      let overall_score ← decInt v2
      let keyword_score ← decInt v3
      let format_score ← decInt v4
      let structure_score ← decInt v5
      let recommendations ← decStrList v6
      let missing_keywords ← decStrList v7
      let keyword_density ← decDensity v8
      pure ⟨job_title, overall_score, keyword_score, format_score,
        structure_score, recommendations, missing_keywords,
        keyword_density⟩
  | _ => none

/-- `ResumeEnhancement` encoder: a positional array of its eight
fields. -/
def encEnhancement (e : ResumeEnhancement) : JValue :=
  .jarr [encStrList e.missing_skills_to_add,
    encStrList e.experience_bullets_to_add,
    encStrList e.keywords_to_incorporate,
    encStrList e.technical_tools_to_mention,
    encStrList e.certifications_to_pursue,
    encStrList e.action_verbs_suggestions,
    encStrList e.quantifiable_achievements,
    encSectionMap e.section_improvements]

/-- `ResumeEnhancement` decoder. -/
def decEnhancement : JValue → Option ResumeEnhancement
  | .jarr [v1, v2, v3, v4, v5, v6, v7, v8] => do
      let missing_skills_to_add ← decStrList v1
      let experience_bullets_to_add ← decStrList v2
      let keywords_to_incorporate ← decStrList v3
      let technical_tools_to_mention ← decStrList v4
      let certifications_to_pursue ← decStrList v5
      let action_verbs_suggestions ← decStrList v6
      let quantifiable_achievements ← decStrList v7
      let section_improvements ← decSectionMap v8
      pure ⟨missing_skills_to_add, experience_bullets_to_add,
        keywords_to_incorporate, technical_tools_to_mention,
        certifications_to_pursue, action_verbs_suggestions,
        quantifiable_achievements, section_improvements⟩
  | _ => none

/-- `Message` encoder: role and content. -/
def encMessage (m : Message) : JValue := .jarr [encStr m.role, encStr m.content]

/-- `Message` decoder. -/
def decMessage : JValue → Option Message
  | .jarr [v1, v2] => do
      let role ← decStr v1
      let content ← decStr v2
      pure ⟨role, content⟩
  | _ => none

/-- Workflow-state serializer: a positional array of all thirty
fields. -/
def serialize_state (s : ResumeAnalysisState) : JValue :=
  .jarr [encList encMessage s.messages,
    encOpt encStr s.uploaded_file_path,
    encOpt encStr s.target_job_title,
    encOpt encStr s.target_industry,
    encOpt encStr s.target_location,
    encOpt encStr s.experience_level,
    encOpt encResumeData s.resume_data,
    encStrList s.parsing_errors,
    encOpt encStr s.file_format,
    encOpt encRat s.parsing_confidence,
    encList encJobMatch s.matching_jobs,
    encStrList s.job_search_errors,
    encOpt encStr s.search_query_used,
    encInt s.total_jobs_found,
    encList encATSScore s.ats_scores,
    encOpt encRat s.average_ats_score,
    encOpt encStr s.best_ats_match,
    encStrList s.improvement_recommendations,
    encOpt encEnhancement s.resume_enhancements,
    encStrList s.personalized_tips,
    encStrList s.priority_improvements,
    encStr s.current_step,
    encStrList s.errors,
    encStrList s.warnings,
    encBool s.is_complete,
    encOpt encRat s.processing_time_seconds,
    encOpt encStr s.workflow_version,
    encOpt encStr s.timestamp_started,
    encOpt encStr s.timestamp_completed,
    encOpt encStr s.user_id]

/-- Workflow-state deserializer: requires an array of exactly thirty
encoded fields, decodes each in order, and succeeds only when every
field decodes. -/
def deserialize_state : JValue → Option ResumeAnalysisState
  | .jarr [w1, w2, w3, w4, w5, w6, w7, w8, w9, w10,
      w11, w12, w13, w14, w15, w16, w17, w18, w19, w20,
      w21, w22, w23, w24, w25, w26, w27, w28, w29, w30] =>
    (match decList decMessage w1, decOpt decStr w2, decOpt decStr w3,
        decOpt decStr w4, decOpt decStr w5, decOpt decStr w6,
        decOpt decResumeData w7, decStrList w8, decOpt decStr w9,
        decOpt decRat w10, decList decJobMatch w11, decStrList w12,
        decOpt decStr w13, decInt w14, decList decATSScore w15,
        decOpt decRat w16, decOpt decStr w17, decStrList w18,
        decOpt decEnhancement w19, decStrList w20, decStrList w21,
        decStr w22, decStrList w23, decStrList w24, decBool w25,
        decOpt decRat w26, decOpt decStr w27, decOpt decStr w28,
        decOpt decStr w29, decOpt decStr w30 with
     | some messages, some uploaded_file_path, some target_job_title,
         some target_industry, some target_location,
         some experience_level, some resume_data, some parsing_errors,
         some file_format, some parsing_confidence, some matching_jobs,
         some job_search_errors, some search_query_used,
         some total_jobs_found, some ats_scores, some average_ats_score,
         some best_ats_match, some improvement_recommendations,
         some resume_enhancements, some personalized_tips,
         some priority_improvements, some current_step, some errors,
         some warnings, some is_complete, some processing_time_seconds,
         some workflow_version, some timestamp_started,
         some timestamp_completed, some user_id =>
         some ⟨messages, uploaded_file_path, target_job_title,
           target_industry, target_location, experience_level,
           resume_data, parsing_errors, file_format, parsing_confidence,
           matching_jobs, job_search_errors, search_query_used,
           total_jobs_found, ats_scores, average_ats_score,
           best_ats_match, improvement_recommendations,
           resume_enhancements, personalized_tips, priority_improvements,
           current_step, errors, warnings, is_complete,
           processing_time_seconds, workflow_version, timestamp_started,
           timestamp_completed, user_id⟩
     | _, _, _, _, _, _, _, _, _, _, _, _, _, _, _, _, _, _, _, _,
         _, _, _, _, _, _, _, _, _, _ => none)
  | _ => none

end ResumeWorkflow

namespace ResumeWorkflow

/-- C1: `validate_state_transition from to` is true exactly when
`(from, to)` is one of the fourteen pairs of the spec's transition
table, and every transition out of `completed` is invalid. -/
theorem transition_iff_table :
    (∀ f t : String,
      validate_state_transition f t = true ↔ (f, t) ∈ specTransitionPairs) ∧
    (∀ x : String, validate_state_transition "completed" x = false) := by
  have key : ∀ f t : String,
      validate_state_transition f t = true ↔ (f, t) ∈ specTransitionPairs := by
    intro f t
    simp only [validate_state_transition, decide_eq_true_eq]
    by_cases h1 : f = "initialized"
    · subst h1; simp [valid_transitions, specTransitionPairs]
    by_cases h2 : f = "parsing_resume"
    · subst h2; simp [valid_transitions, specTransitionPairs]
    by_cases h3 : f = "resume_parsed"
    · subst h3; simp [valid_transitions, specTransitionPairs]
    by_cases h4 : f = "searching_jobs"
    · subst h4; simp [valid_transitions, specTransitionPairs]
    by_cases h5 : f = "jobs_found"
    · subst h5; simp [valid_transitions, specTransitionPairs]
    by_cases h6 : f = "scoring_ats"
    · subst h6; simp [valid_transitions, specTransitionPairs]
    by_cases h7 : f = "ats_scored"
    · subst h7; simp [valid_transitions, specTransitionPairs]
    by_cases h8 : f = "generating_advice"
    · subst h8; simp [valid_transitions, specTransitionPairs]
    by_cases h9 : f = "error"
    · subst h9; simp [valid_transitions, specTransitionPairs]
    by_cases h10 : f = "completed"
    · subst h10; simp [valid_transitions, specTransitionPairs]
    · simp [valid_transitions, specTransitionPairs,
        h1, h2, h3, h4, h5, h6, h7, h8, h9, h10]
  refine ⟨key, ?_⟩
  intro x
  have h := key "completed" x
  simp only [specTransitionPairs] at h
  simp only [List.mem_cons, List.not_mem_nil, Prod.mk.injEq] at h
  rcases hb : validate_state_transition "completed" x with _ | _
  · rfl
  · exfalso
    have := h.mp hb
    simp at this

/-- C2: the progress calculator maps each of the ten recognized step
names to its fixed percentage, and every other string to `0`. -/
theorem progress_table_values :
    (get_state_progress_percentage "initialized" = 0 ∧
     get_state_progress_percentage "parsing_resume" = 10 ∧
     get_state_progress_percentage "resume_parsed" = 25 ∧
     get_state_progress_percentage "searching_jobs" = 40 ∧
     get_state_progress_percentage "jobs_found" = 60 ∧
     get_state_progress_percentage "scoring_ats" = 75 ∧
     get_state_progress_percentage "ats_scored" = 85 ∧
     get_state_progress_percentage "generating_advice" = 95 ∧
     get_state_progress_percentage "completed" = 100 ∧
     get_state_progress_percentage "error" = 0) ∧
    ∀ s : String, s ∉ progressTableKeys → get_state_progress_percentage s = 0 := by
  constructor
  · refine ⟨?_, ?_, ?_, ?_, ?_, ?_, ?_, ?_, ?_, ?_⟩ <;> decide
  · intro s hs
    simp only [progressTableKeys, List.mem_cons, List.not_mem_nil, or_false,
      not_or] at hs
    obtain ⟨h1, h2, h3, h4, h5, h6, h7, h8, h9, h10⟩ := hs
    simp [get_state_progress_percentage, h1, h2, h3, h4, h5, h6, h7, h8, h9, h10]

/-- Witness for C2: instantiating the unrecognized-step clause at a
concrete unknown step name. -/
theorem progress_table_values_witness :
    get_state_progress_percentage "retrying" = 0 :=
  progress_table_values.2 "retrying" (by decide)

/-- C5: from any string that is not a key of the transition table —
`retry` included — every transition is invalid, and the validator is a
total function (it signals the unknown step only through its `false`
return value). -/
theorem unknown_from_invalid :
    ∀ f : String, f ∉ transitionTableKeys →
      ∀ t : String, validate_state_transition f t = false := by
  intro f hf t
  simp only [transitionTableKeys, List.mem_cons, List.not_mem_nil, or_false,
    not_or] at hf
  obtain ⟨h1, h2, h3, h4, h5, h6, h7, h8, h9, h10⟩ := hf
  simp [validate_state_transition, valid_transitions,
    h1, h2, h3, h4, h5, h6, h7, h8, h9, h10]

/-- Witness for C5: `retry` is not a key of the table, and no
transition out of it is valid. -/
theorem unknown_from_invalid_witness :
    validate_state_transition "retry" "parsing_resume" = false :=
  unknown_from_invalid "retry" (by decide) "parsing_resume"

/-- Counterexample to C4 as stated: the escape edge
`parsing_resume → error` is a valid transition, yet progress drops from
`10` to `0` across it. -/
theorem progress_drops_on_error_edge :
    validate_state_transition "parsing_resume" "error" = true ∧
    ¬ (get_state_progress_percentage "parsing_resume" ≤
       get_state_progress_percentage "error") := by
  refine ⟨?_, ?_⟩ <;> decide

/-- C4 amended: progress is monotonically non-decreasing along every
valid transition whose target is not the `error` step, and in
particular along the whole canonical success path. -/
theorem progress_monotone_off_error :
    (∀ f t : String, validate_state_transition f t = true → t ≠ "error" →
      get_state_progress_percentage f ≤ get_state_progress_percentage t) ∧
    (get_state_progress_percentage "initialized" ≤
       get_state_progress_percentage "parsing_resume" ∧
     get_state_progress_percentage "parsing_resume" ≤
       get_state_progress_percentage "resume_parsed" ∧
     get_state_progress_percentage "resume_parsed" ≤
       get_state_progress_percentage "searching_jobs" ∧
     get_state_progress_percentage "searching_jobs" ≤
       get_state_progress_percentage "jobs_found" ∧
     get_state_progress_percentage "jobs_found" ≤
       get_state_progress_percentage "scoring_ats" ∧
     get_state_progress_percentage "scoring_ats" ≤
       get_state_progress_percentage "ats_scored" ∧
     get_state_progress_percentage "ats_scored" ≤
       get_state_progress_percentage "generating_advice" ∧
     get_state_progress_percentage "generating_advice" ≤
       get_state_progress_percentage "completed") := by
  constructor
  · intro f t hv ht
    simp only [validate_state_transition, decide_eq_true_eq] at hv
    by_cases h1 : f = "initialized"
    · subst h1
      simp only [valid_transitions, List.mem_cons, List.not_mem_nil, or_false,
        reduceIte, String.reduceEq] at hv
      subst hv; decide
    by_cases h2 : f = "parsing_resume"
    · subst h2
      simp only [valid_transitions, List.mem_cons, List.not_mem_nil, or_false,
        reduceIte, String.reduceEq] at hv
      rcases hv with hv | hv
      · subst hv; decide
      · exact absurd hv ht
    by_cases h3 : f = "resume_parsed"
    · subst h3
      simp only [valid_transitions, List.mem_cons, List.not_mem_nil, or_false,
        reduceIte, String.reduceEq] at hv
      subst hv; decide
    by_cases h4 : f = "searching_jobs"
    · subst h4
      simp only [valid_transitions, List.mem_cons, List.not_mem_nil, or_false,
        reduceIte, String.reduceEq] at hv
      rcases hv with hv | hv
      · subst hv; decide
      · exact absurd hv ht
    by_cases h5 : f = "jobs_found"
    · subst h5
      simp only [valid_transitions, List.mem_cons, List.not_mem_nil, or_false,
        reduceIte, String.reduceEq] at hv
      subst hv; decide
    by_cases h6 : f = "scoring_ats"
    · subst h6
      simp only [valid_transitions, List.mem_cons, List.not_mem_nil, or_false,
        reduceIte, String.reduceEq] at hv
      rcases hv with hv | hv
      · subst hv; decide
      · exact absurd hv ht
    by_cases h7 : f = "ats_scored"
    · subst h7
      simp only [valid_transitions, List.mem_cons, List.not_mem_nil, or_false,
        reduceIte, String.reduceEq] at hv
      subst hv; decide
    by_cases h8 : f = "generating_advice"
    · subst h8
      simp only [valid_transitions, List.mem_cons, List.not_mem_nil, or_false,
        reduceIte, String.reduceEq] at hv
      rcases hv with hv | hv
      · subst hv; decide
      · exact absurd hv ht
    by_cases h9 : f = "error"
    · subst h9
      simp only [valid_transitions, List.mem_cons, List.not_mem_nil, or_false,
        reduceIte, String.reduceEq] at hv
      rcases hv with hv | hv <;> (subst hv; decide)
    by_cases h10 : f = "completed"
    · subst h10
      simp [valid_transitions] at hv
    · simp [valid_transitions, h1, h2, h3, h4, h5, h6, h7, h8, h9, h10] at hv
  · refine ⟨?_, ?_, ?_, ?_, ?_, ?_, ?_, ?_⟩ <;> decide

/-- Witness for C4 amended: the transition `initialized →
parsing_resume` is valid, does not target `error`, and progress does
not decrease across it. -/
theorem progress_monotone_off_error_witness :
    get_state_progress_percentage "initialized" ≤
      get_state_progress_percentage "parsing_resume" :=
  progress_monotone_off_error.1 "initialized" "parsing_resume"
    (by decide) (by decide)

/-- Counterexample to C6 as stated: `resume_parsed` is a productive
non-terminal state, but its only permitted successor is
`searching_jobs` — the transition `resume_parsed → error` is invalid. -/
theorem no_error_edge_from_resume_parsed :
    validate_state_transition "resume_parsed" "error" = false := by
  decide

/-- C6 amended: the `error` step is reachable in one transition from
the four active processing states (`parsing_resume`, `searching_jobs`,
`scoring_ats`, `generating_advice`) but not from the three milestone
states (`resume_parsed`, `jobs_found`, `ats_scored`); from `error`
both escapes `retry` and `completed` are valid. -/
theorem error_edges :
    validate_state_transition "parsing_resume" "error" = true ∧
    validate_state_transition "searching_jobs" "error" = true ∧
    validate_state_transition "scoring_ats" "error" = true ∧
    validate_state_transition "generating_advice" "error" = true ∧
    validate_state_transition "resume_parsed" "error" = false ∧
    validate_state_transition "jobs_found" "error" = false ∧
    validate_state_transition "ats_scored" "error" = false ∧
    validate_state_transition "error" "retry" = true ∧
    validate_state_transition "error" "completed" = true := by
  refine ⟨?_, ?_, ?_, ?_, ?_, ?_, ?_, ?_, ?_⟩ <;> decide

/-- C9: `retry` is a permitted target from `error`, yet it is not a key
of the progress table, so a workflow resumed via `retry` reports zero
percent progress, exactly like an unrecognized step. -/
theorem retry_progress_zero :
    validate_state_transition "error" "retry" = true ∧
    "retry" ∉ progressTableKeys ∧
    get_state_progress_percentage "retry" = 0 := by
  refine ⟨?_, ?_, ?_⟩ <;> decide

/-- C3: for every clock reading and every combination of arguments, the
state factory returns a state with the five input fields as given,
every list field empty, every optional output scalar absent,
`total_jobs_found` zero, `current_step` `"initialized"`, `is_complete`
false, the fixed workflow version `"1.0.0"`, `timestamp_started` the
ISO-8601 string for the current time, and `timestamp_completed`
absent. -/
theorem create_initial_state_spec :
    ∀ (now path : String) (jt ind loc exp : Option String),
      (create_initial_state now path jt ind loc exp).uploaded_file_path = some path ∧
      (create_initial_state now path jt ind loc exp).target_job_title = jt ∧
      (create_initial_state now path jt ind loc exp).target_industry = ind ∧
      (create_initial_state now path jt ind loc exp).target_location = loc ∧
      (create_initial_state now path jt ind loc exp).experience_level = exp ∧
      (create_initial_state now path jt ind loc exp).messages = [] ∧
      (create_initial_state now path jt ind loc exp).parsing_errors = [] ∧
      (create_initial_state now path jt ind loc exp).matching_jobs = [] ∧
      (create_initial_state now path jt ind loc exp).job_search_errors = [] ∧
      (create_initial_state now path jt ind loc exp).ats_scores = [] ∧
      (create_initial_state now path jt ind loc exp).improvement_recommendations = [] ∧
      (create_initial_state now path jt ind loc exp).personalized_tips = [] ∧
      (create_initial_state now path jt ind loc exp).priority_improvements = [] ∧
      (create_initial_state now path jt ind loc exp).errors = [] ∧
      (create_initial_state now path jt ind loc exp).warnings = [] ∧
      (create_initial_state now path jt ind loc exp).resume_data = none ∧
      (create_initial_state now path jt ind loc exp).file_format = none ∧
      (create_initial_state now path jt ind loc exp).parsing_confidence = none ∧
      (create_initial_state now path jt ind loc exp).search_query_used = none ∧
      (create_initial_state now path jt ind loc exp).average_ats_score = none ∧
      (create_initial_state now path jt ind loc exp).best_ats_match = none ∧
      (create_initial_state now path jt ind loc exp).resume_enhancements = none ∧
      (create_initial_state now path jt ind loc exp).processing_time_seconds = none ∧
      (create_initial_state now path jt ind loc exp).timestamp_completed = none ∧
      (create_initial_state now path jt ind loc exp).user_id = none ∧
      (create_initial_state now path jt ind loc exp).total_jobs_found = 0 ∧
      (create_initial_state now path jt ind loc exp).current_step = "initialized" ∧
      (create_initial_state now path jt ind loc exp).is_complete = false ∧
      (create_initial_state now path jt ind loc exp).workflow_version = some "1.0.0" ∧
      (create_initial_state now path jt ind loc exp).timestamp_started = some now := by
  intro now path jt ind loc exp
  exact ⟨rfl, rfl, rfl, rfl, rfl, rfl, rfl, rfl, rfl, rfl, rfl, rfl, rfl,
    rfl, rfl, rfl, rfl, rfl, rfl, rfl, rfl, rfl, rfl, rfl, rfl, rfl, rfl,
    rfl, rfl, rfl⟩

/-- C10: the state factory is deterministic in everything except the
clock — two calls with the same arguments at different times produce
states equal in every field except `timestamp_started`, which carries
exactly the clock reading of the call. -/
theorem create_initial_state_clock_determinism :
    ∀ (now₁ now₂ path : String) (jt ind loc exp : Option String),
      (create_initial_state now₁ path jt ind loc exp).messages = (create_initial_state now₂ path jt ind loc exp).messages ∧
      (create_initial_state now₁ path jt ind loc exp).uploaded_file_path = (create_initial_state now₂ path jt ind loc exp).uploaded_file_path ∧
      (create_initial_state now₁ path jt ind loc exp).target_job_title = (create_initial_state now₂ path jt ind loc exp).target_job_title ∧
      (create_initial_state now₁ path jt ind loc exp).target_industry = (create_initial_state now₂ path jt ind loc exp).target_industry ∧
      (create_initial_state now₁ path jt ind loc exp).target_location = (create_initial_state now₂ path jt ind loc exp).target_location ∧
      (create_initial_state now₁ path jt ind loc exp).experience_level = (create_initial_state now₂ path jt ind loc exp).experience_level ∧
      (create_initial_state now₁ path jt ind loc exp).resume_data = (create_initial_state now₂ path jt ind loc exp).resume_data ∧
      (create_initial_state now₁ path jt ind loc exp).parsing_errors = (create_initial_state now₂ path jt ind loc exp).parsing_errors ∧
      (create_initial_state now₁ path jt ind loc exp).file_format = (create_initial_state now₂ path jt ind loc exp).file_format ∧
      (create_initial_state now₁ path jt ind loc exp).parsing_confidence = (create_initial_state now₂ path jt ind loc exp).parsing_confidence ∧
      (create_initial_state now₁ path jt ind loc exp).matching_jobs = (create_initial_state now₂ path jt ind loc exp).matching_jobs ∧
      (create_initial_state now₁ path jt ind loc exp).job_search_errors = (create_initial_state now₂ path jt ind loc exp).job_search_errors ∧
      (create_initial_state now₁ path jt ind loc exp).search_query_used = (create_initial_state now₂ path jt ind loc exp).search_query_used ∧
      (create_initial_state now₁ path jt ind loc exp).total_jobs_found = (create_initial_state now₂ path jt ind loc exp).total_jobs_found ∧
      (create_initial_state now₁ path jt ind loc exp).ats_scores = (create_initial_state now₂ path jt ind loc exp).ats_scores ∧
      (create_initial_state now₁ path jt ind loc exp).average_ats_score = (create_initial_state now₂ path jt ind loc exp).average_ats_score ∧
      (create_initial_state now₁ path jt ind loc exp).best_ats_match = (create_initial_state now₂ path jt ind loc exp).best_ats_match ∧
      (create_initial_state now₁ path jt ind loc exp).improvement_recommendations = (create_initial_state now₂ path jt ind loc exp).improvement_recommendations ∧
      (create_initial_state now₁ path jt ind loc exp).resume_enhancements = (create_initial_state now₂ path jt ind loc exp).resume_enhancements ∧
      (create_initial_state now₁ path jt ind loc exp).personalized_tips = (create_initial_state now₂ path jt ind loc exp).personalized_tips ∧
      (create_initial_state now₁ path jt ind loc exp).priority_improvements = (create_initial_state now₂ path jt ind loc exp).priority_improvements ∧
      (create_initial_state now₁ path jt ind loc exp).current_step = (create_initial_state now₂ path jt ind loc exp).current_step ∧
      (create_initial_state now₁ path jt ind loc exp).errors = (create_initial_state now₂ path jt ind loc exp).errors ∧
      (create_initial_state now₁ path jt ind loc exp).warnings = (create_initial_state now₂ path jt ind loc exp).warnings ∧
      (create_initial_state now₁ path jt ind loc exp).is_complete = (create_initial_state now₂ path jt ind loc exp).is_complete ∧
      (create_initial_state now₁ path jt ind loc exp).processing_time_seconds = (create_initial_state now₂ path jt ind loc exp).processing_time_seconds ∧
      (create_initial_state now₁ path jt ind loc exp).workflow_version = (create_initial_state now₂ path jt ind loc exp).workflow_version ∧
      (create_initial_state now₁ path jt ind loc exp).timestamp_completed = (create_initial_state now₂ path jt ind loc exp).timestamp_completed ∧
      (create_initial_state now₁ path jt ind loc exp).user_id = (create_initial_state now₂ path jt ind loc exp).user_id ∧
      (create_initial_state now₁ path jt ind loc exp).timestamp_started = some now₁ ∧
      (create_initial_state now₂ path jt ind loc exp).timestamp_started = some now₂ := by
  intro now₁ now₂ path jt ind loc exp
  exact ⟨rfl, rfl, rfl, rfl, rfl, rfl, rfl, rfl, rfl, rfl, rfl, rfl, rfl,
    rfl, rfl, rfl, rfl, rfl, rfl, rfl, rfl, rfl, rfl, rfl, rfl, rfl, rfl,
    rfl, rfl, rfl, rfl⟩

/-- C7: over the abstract filesystem model, the file validator returns
`(true, none)` exactly when the file exists, its size in megabytes
does not exceed the bound, and the extension of the lowercased path is
one of `.pdf`, `.docx`, `.txt`; it returns `false` together with a
non-`none` error message in every other case, and it is a total
function. -/
theorem validate_file_spec :
    ∀ (fs : FileSystem) (p : String) (m : Int),
      let r := validate_file fs p m
      (r = (true, none) ↔
        (fs.path_exists p = true ∧
         (fs.getsize p : ℚ) / (1024 * 1024) ≤ (m : ℚ) ∧
         String.mk (splitext p.toLower.toList).2 ∈ allowed_extensions)) ∧
      (r.1 = false ↔ ∃ msg, r.2 = some msg) := by
  intro fs p m
  by_cases he : fs.path_exists p = true
  · by_cases hs : (fs.getsize p : ℚ) / (1024 * 1024) > (m : ℚ)
    · have hs' : ¬ (fs.getsize p : ℚ) / (1024 * 1024) ≤ (m : ℚ) :=
        not_le.mpr hs
      simp [validate_file, he, hs, hs']
    · by_cases hx : String.mk (splitext p.toLower.toList).2 ∈ allowed_extensions
      · simp only [String.toList] at hx
        simp [validate_file, he, hs, hx, not_lt.mp hs, String.toList]
      · simp only [String.toList] at hx
        simp [validate_file, he, hs, hx, String.toList]
  · simp [validate_file, he]

theorem decOpt_encOpt (dec : JValue → Option α) (enc : α → JValue)
    (h : ∀ a, dec (enc a) = some a) :
    ∀ o : Option α, decOpt dec (encOpt enc o) = some o
  | none => rfl
  | some a => by simp [encOpt, decOpt, h]

theorem decJList_encList (dec : JValue → Option α) (enc : α → JValue)
    (h : ∀ a, dec (enc a) = some a) :
    ∀ xs : List α, decJList dec (xs.map enc) = some xs
  | [] => rfl
  | x :: xs => by
      simp [decJList, h, decJList_encList dec enc h xs]

theorem decList_encList (dec : JValue → Option α) (enc : α → JValue)
    (h : ∀ a, dec (enc a) = some a) (xs : List α) :
    decList dec (encList enc xs) = some xs := by
  simp [encList, decList, decJList_encList dec enc h xs]

theorem decPair_encPair (decA : JValue → Option α) (encA : α → JValue)
    (decB : JValue → Option β) (encB : β → JValue)
    (ha : ∀ a, decA (encA a) = some a) (hb : ∀ b, decB (encB b) = some b)
    (p : α × β) : decPair decA decB (encPair encA encB p) = some p := by
  cases p with
  | mk a b => simp [encPair, decPair, ha, hb]

theorem decStrList_enc (xs : List String) :
    decStrList (encStrList xs) = some xs :=
  decList_encList decStr encStr (fun _ => rfl) xs

theorem decSections_enc (xs : List (String × JValue)) :
    decSections (encSections xs) = some xs :=
  decList_encList _ _
    (fun p => decPair_encPair decStr encStr some (fun v => v)
      (fun _ => rfl) (fun _ => rfl) p) xs

theorem decDensity_enc (xs : List (String × ℚ)) :
    decDensity (encDensity xs) = some xs :=
  decList_encList _ _
    (fun p => decPair_encPair decStr encStr decRat encRat
      (fun _ => rfl) (fun _ => rfl) p) xs

theorem decSectionMap_enc (xs : List (String × List String)) :
    decSectionMap (encSectionMap xs) = some xs :=
  decList_encList _ _
    (fun p => decPair_encPair decStr encStr decStrList encStrList
      (fun _ => rfl) decStrList_enc p) xs

theorem decResumeData_enc (r : ResumeData) :
    decResumeData (encResumeData r) = some r := by
  cases r
  simp [encResumeData, decResumeData, decStrList_enc, decSections_enc,
    encStr, decStr, encInt, decInt, encRat, decRat, encBool, decBool]

theorem decJobMatch_enc (j : JobMatch) :
    decJobMatch (encJobMatch j) = some j := by
  cases j
  simp [encJobMatch, decJobMatch, decStrList_enc,
    decOpt_encOpt decStr encStr (fun _ => rfl), encStr, decStr, encInt, decInt, encRat, decRat, encBool, decBool]

theorem decATSScore_enc (a : ATSScore) :
    decATSScore (encATSScore a) = some a := by
  cases a
  simp [encATSScore, decATSScore, decStrList_enc, decDensity_enc,
    encStr, decStr, encInt, decInt, encRat, decRat, encBool, decBool]

theorem decEnhancement_enc (e : ResumeEnhancement) :
    decEnhancement (encEnhancement e) = some e := by
  cases e
  simp [encEnhancement, decEnhancement, decStrList_enc, decSectionMap_enc]

theorem decMessage_enc (m : Message) :
    decMessage (encMessage m) = some m := by
  cases m
  simp [encMessage, decMessage, encStr, decStr, encInt, decInt, encRat, decRat, encBool, decBool]

/-- C8: serializing any workflow state and deserializing the result
recovers the original state, field for field; the tagged encoding of
optional fields keeps an absent optional distinct from an empty list,
so the distinction survives the round trip. -/
theorem serialize_state_roundtrip :
    ∀ s : ResumeAnalysisState, deserialize_state (serialize_state s) = some s := by
  intro s
  cases s
  simp [serialize_state, deserialize_state, decStrList_enc,
    decOpt_encOpt decStr encStr (fun _ => rfl),
    decOpt_encOpt decRat encRat (fun _ => rfl),
    decOpt_encOpt decResumeData encResumeData decResumeData_enc,
    decOpt_encOpt decEnhancement encEnhancement decEnhancement_enc,
    decList_encList decMessage encMessage decMessage_enc,
    decList_encList decJobMatch encJobMatch decJobMatch_enc,
    decList_encList decATSScore encATSScore decATSScore_enc, encStr, decStr, encInt, decInt, encRat, decRat, encBool, decBool]

end ResumeWorkflow
